import Mathlib

/-!
Shallow embedding of the weight-extraction pipeline of `ocr_utils.py`
(WhatsApp weighbridge bot).  Pure text-processing functions are translated
directly; image-dependent OCR backend outputs are modelled as oracle inputs
carried by an explicit environment record, and Python exceptions are modelled
as explicit flags/`Option` fields consumed exactly where the source catches
them.  Weights are natural numbers: every numeric value the source produces
is `float(s)` of a digit string, and the range comparisons against the
integer bounds `MIN_WEIGHT`/`MAX_WEIGHT` coincide with the `Nat` comparisons
modelled here.
-/

namespace OcrUtils

/-- A character matched by the character class of the regex
`[\d\.,\s]+` used in `_parse_weight` (digits, dot, comma, whitespace). -/
def isFragChar (c : Char) : Bool :=
  c.isDigit || c == '.' || c == ',' || c.isWhitespace

/-- Left-to-right scan collecting maximal runs of characters satisfying `p`;
`acc` holds the current run, reversed. -/
def findRunsAux (p : Char → Bool) : List Char → List Char → List (List Char)
  | acc, [] => if acc.isEmpty then [] else [acc.reverse]
  | acc, c :: cs =>
    if p c then findRunsAux p (c :: acc) cs
    else if acc.isEmpty then findRunsAux p [] cs
    else acc.reverse :: findRunsAux p [] cs

/-- Maximal runs of characters satisfying `p`, in order: the semantics of
`re.findall` with a single-character-class pattern under `+`. -/
def findRuns (p : Char → Bool) (l : List Char) : List (List Char) :=
  findRunsAux p [] l

/-- Python `str.strip()` on a list of characters. -/
def pyStrip (s : List Char) : List Char :=
  ((s.dropWhile Char.isWhitespace).reverse.dropWhile Char.isWhitespace).reverse

/-- Python `str.strip()` on a `String`. -/
def pyStripS (s : String) : String :=
  String.mk (pyStrip s.toList)

/-- Whether `re.search(r"\d", s)` finds a digit. -/
def hasDigitS (s : String) : Bool :=
  s.toList.any Char.isDigit

/-- Numeric value of a (nonempty) digit list, as `int(s)` / `float(s)` of a
digit-only string. -/
def natOfDigits (ds : List Char) : Nat :=
  ds.foldl (fun acc c => acc * 10 + (c.toNat - '0'.toNat)) 0

/-- Python `max` over a nonempty list (0 on the empty list, which the source
never reaches). -/
def maxList : List Nat → Nat
  | [] => 0
  | [x] => x
  | x :: y :: xs => Nat.max x (maxList (y :: xs))

/-- `_clean_number_string` (closure inside `_parse_weight`,
`ocr_utils.py:496-510`): strip, require a digit, drop `.` and `,`, drop
every remaining non-digit, convert.  `float` of a nonempty digit string
always succeeds, so the final `try` never fails. -/
def _clean_number_string (s0 : List Char) : Option Nat :=
  let s := pyStrip s0
  if s.isEmpty || !(s.any Char.isDigit) then none
  else
    let s1 := s.filter (fun c => !(c == '.'))
    let s2 := s1.filter (fun c => !(c == ','))
    let s3 := s2.filter Char.isDigit
    if s3.isEmpty then none else some (natOfDigits s3)

/-- The numeric values extracted from a text by `_parse_weight` before the
range filter: `re.findall(r'[\d\.,\s]+', text)` followed by
`_clean_number_string` on each fragment. -/
def parsedValues (text : String) : List Nat :=
  (findRuns isFragChar text.toList).filterMap _clean_number_string

/-- `_parse_weight` (`ocr_utils.py:480-532`): collect in-range values, return
the maximum together with the in-range candidate list, or `none` when no
in-range value exists.  The bounds `MIN`/`MAX` model the module globals
`MIN_WEIGHT`/`MAX_WEIGHT`. -/
def _parse_weight (MIN MAX : Nat) (text : String) : Option Nat × List Nat :=
  if text.isEmpty then (none, [])
  else
    let candidates := (parsedValues text).filter (fun v => MIN ≤ v && v ≤ MAX)
    if candidates.isEmpty then (none, candidates)
    else (some (maxList candidates), candidates)

/-- Python `str.upper()` on a list of characters. -/
def pyUpper (s : List Char) : List Char :=
  s.map Char.toUpper

/-- `_gpt_assist_from_text` (`ocr_utils.py:535-588`).  The OpenAI chat
request is external I/O: its outcome is the oracle `gptReply` (`none` models
a failed request).  Whatever the reply, the source filters the digit runs of
the reply against the hard-coded bounds `100`/`150000` — not against the
module globals `MIN_WEIGHT`/`MAX_WEIGHT`.  The `text` argument only feeds
the prompt, so it does not influence the modelled result beyond `gptReply`
being an oracle. -/
def _gpt_assist_from_text (openaiAvailable : Bool) (gptReply : Option String)
    (text : String) : Option Nat × List Nat :=
  if !openaiAvailable then (none, [])
  else
    match gptReply with
    | none => (none, [])
    | some r =>
      let gpt_text := pyStrip r.toList
      if gpt_text.isEmpty || pyUpper gpt_text == "NONE".toList then (none, [])
      else
        let nums := findRuns Char.isDigit gpt_text
        let candidates := (nums.map natOfDigits).filter
          (fun v => 100 ≤ v && v ≤ 150000)
        if candidates.isEmpty then (none, [])
        else (some (maxList candidates), candidates)

/-- Environment of one `extract_weight_from_image` call: the module
availability flags, the filesystem / image-decoding outcomes, and the texts
each OCR backend would recognize on this image (oracles for the
image-dependent computations), with explicit flags for the exceptions the
source catches. -/
structure Env where
  /-- `os.path.exists(image_path)` -/
  fileExists : Bool := true
  /-- `cv2.imread` raising (message), reaching the outer `except`. -/
  imreadExc : Option String := none
  /-- `cv2.imread` returned a non-`None` image. -/
  imageOk : Bool := true
  /-- module flag `PADDLE_AVAILABLE` -/
  paddleAvailable : Bool := false
  /-- an exception inside `_extract_with_paddle`, caught there -/
  paddleExc : Bool := false
  /-- `not results or not results[0]` from `ocr.ocr` -/
  paddleRawEmpty : Bool := false
  /-- the `(text, confidence)` pairs extracted from the PaddleOCR result
  items (the item-format probing loop of lines 173-200, post extraction;
  items whose text could not be read contribute nothing and are omitted) -/
  paddleSegs : List (String × Rat) := []
  /-- an exception inside `_extract_with_cv2`, caught there -/
  cv2Exc : Bool := false
  /-- `_extract_led_by_color` found a region -/
  ledRoiFound : Bool := false
  /-- text collected by PaddleOCR on the LED region (empty when the call
  raised, returned nothing, or Paddle is unavailable on that path) -/
  cv2RoiPaddleCollected : String := ""
  /-- `pytesseract` text on the LED region (empty when it raised or found
  nothing) -/
  cv2RoiTessText : String := ""
  /-- `all_numbers`: concatenation of PaddleOCR texts over the per-contour
  regions of the adaptive-threshold pass -/
  cv2AllNumbers : String := ""
  /-- module flag `TESSERACT_AVAILABLE` -/
  tesseractAvailable : Bool := false
  /-- an exception inside `_extract_with_tesseract`, caught there -/
  tessExc : Bool := false
  /-- the texts the tesseract attempts produce (whole image, then each
  contour region), in order -/
  tessTexts : List String := []
  /-- `OPENAI_AVAILABLE` (package installed and key configured) -/
  openaiAvailable : Bool := false
  /-- oracle for the OpenAI chat reply (`none`: the request failed) -/
  gptReply : Option String := none

/-- `_extract_with_paddle` (`ocr_utils.py:149-223`): join the recognized
segments into `all_text`; concatenate the digit-bearing segments with
confidence ≥ 0.35 into `numeric_concat` and parse that first; otherwise
parse `all_text`.  Every exception is caught and yields `(None, [], "")`. -/
def _extract_with_paddle (MIN MAX : Nat) (e : Env) :
    Option Nat × List Nat × String :=
  if e.paddleExc then (none, [], "")
  else if e.paddleRawEmpty then (none, [], "")
  else
    let detected := (e.paddleSegs.map (fun tc => (pyStripS tc.1, tc.2))).filter
      (fun tc => !tc.1.isEmpty)
    let all_text := detected.foldl (fun acc tc => acc ++ tc.1 ++ " ") ""
    let numeric_concat := detected.foldl
      (fun acc tc =>
        if hasDigitS tc.1 && decide (mkRat 35 100 ≤ tc.2) then
          acc ++ tc.1 ++ " "
        else acc) ""
    if !numeric_concat.isEmpty then
      match _parse_weight MIN MAX numeric_concat with
      | (some w, cs) => (some w, cs, all_text)
      | (none, _) =>
        let r := _parse_weight MIN MAX all_text
        (r.1, r.2, all_text)
    else
      let r := _parse_weight MIN MAX all_text
      (r.1, r.2, all_text)

/-- `_extract_with_cv2` (`ocr_utils.py:287-412`): when a LED-colored region
is found, try PaddleOCR then tesseract on it, returning on the first parse
that yields a weight; otherwise parse the concatenated per-contour PaddleOCR
text `all_numbers` (returned even when the parse fails); `(None, [])` when
`all_numbers` is empty or an exception occurred. -/
def _extract_with_cv2 (MIN MAX : Nat) (e : Env) : Option Nat × List Nat :=
  if e.cv2Exc then (none, [])
  else
    let roiResult : Option (Option Nat × List Nat) :=
      if e.ledRoiFound then
        let p1 : Option (Option Nat × List Nat) :=
          if e.paddleAvailable && !e.cv2RoiPaddleCollected.isEmpty then
            match _parse_weight MIN MAX e.cv2RoiPaddleCollected with
            | (some w, cs) => some (some w, cs)
            | (none, _) => none
          else none
        match p1 with
        | some r => some r
        | none =>
          if e.tesseractAvailable && !e.cv2RoiTessText.isEmpty then
            match _parse_weight MIN MAX e.cv2RoiTessText with
            | (some w, cs) => some (some w, cs)
            | (none, _) => none
          else none
      else none
    match roiResult with
    | some r => r
    | none =>
      if !e.cv2AllNumbers.isEmpty then _parse_weight MIN MAX e.cv2AllNumbers
      else (none, [])

/-- `_extract_with_tesseract` (`ocr_utils.py:415-477`): concatenate the
nonempty texts of the tesseract attempts (each followed by a space) and
parse the result; `(None, [], "")` on an exception. -/
def _extract_with_tesseract (MIN MAX : Nat) (e : Env) :
    Option Nat × List Nat × String :=
  if e.tessExc then (none, [], "")
  else
    let attempts_text := e.tessTexts.foldl
      (fun acc t => if !t.isEmpty then acc ++ t ++ " " else acc) ""
    let r := _parse_weight MIN MAX attempts_text
    (r.1, r.2, attempts_text)

/-- The `details` dictionary of `extract_weight_from_image`. -/
structure Details where
  method : String
  error : Option String
  text : String
  candidates : List Nat
deriving DecidableEq, Repr

/-- The fixed user-facing guidance message returned when every backend is
exhausted (`ocr_utils.py:133-139`). -/
def failureMessage : String :=
  "❌ Не удалось автоматически определить вес\n\n💡 Пожалуйста:\n1. Отправьте *новое фото* - более четкое табло весов\n2. ИЛИ введите вес *вручную* (например: 22380)\n\n⚠️ Совет: фото должно быть четким и ярким, табло видно полностью"

/-- `extract_weight_from_image` (`ocr_utils.py:58-146`): the orchestrator.
Checks the file and the decode, then tries PaddleOCR, the CV2 fallback,
tesseract and the GPT assist in order, returning `(weight, "", details)` on
the first success, the fixed guidance message with no value when all fail,
and converting an exception that reaches the outer handler into
`(None, error message, details with error set)`. -/
def extract_weight_from_image (MIN MAX : Nat) (e : Env) :
    Option Nat × String × Details :=
  let d0 : Details := { method := "none", error := none, text := "", candidates := [] }
  if !e.fileExists then (none, "❌ Файл фото не найден", d0)
  else
    match e.imreadExc with
    | some msg =>
      (none, "❌ Ошибка обработки фото: " ++ msg, { d0 with error := some msg })
    | none =>
      if !e.imageOk then (none, "❌ Не удалось открыть фото", d0)
      else
        let pr := if e.paddleAvailable then some (_extract_with_paddle MIN MAX e) else none
        let d1 := match pr with
          | some (_, cs, t) => { d0 with text := t, candidates := cs }
          | none => d0
        match pr with
        | some (some w, cs, t) =>
          (some w, "", { d0 with method := "paddle", text := t, candidates := cs })
        | _ =>
          let cr := _extract_with_cv2 MIN MAX e
          match cr with
          | (some w, ccs) => (some w, "", { d1 with method := "cv2", candidates := ccs })
          | (none, _) =>
            let tr := if e.tesseractAvailable then some (_extract_with_tesseract MIN MAX e) else none
            let d2 := match tr with
              | some (_, _, tt) => { d1 with text := pyStripS (d1.text ++ " " ++ tt) }
              | none => d1
            match tr with
            | some (some w, tcs, tt) =>
              (some w, "",
                { d1 with text := pyStripS (d1.text ++ " " ++ tt),
                          method := "tesseract", candidates := tcs })
            | _ =>
              let gr := if e.openaiAvailable then
                  some (_gpt_assist_from_text e.openaiAvailable e.gptReply d2.text)
                else none
              match gr with
              | some (some w, gcs) =>
                (some w, "", { d2 with method := "gpt", candidates := gcs })
              | _ => (none, failureMessage, d2)

theorem maxList_mem : ∀ (l : List Nat), l ≠ [] → maxList l ∈ l
  | [], h => absurd rfl h
  | [x], _ => by simp [maxList]
  | x :: y :: xs, _ => by
    have ih := maxList_mem (y :: xs) (by simp)
    show max x (maxList (y :: xs)) ∈ x :: y :: xs
    rcases max_choice x (maxList (y :: xs)) with h | h
    · rw [h]
      exact List.mem_cons_self x _
    · rw [h]
      exact List.mem_cons_of_mem x ih

theorem mem_range_filter {MIN MAX v : Nat} {l : List Nat}
    (h : v ∈ l.filter (fun v => MIN ≤ v && v ≤ MAX)) : MIN ≤ v ∧ v ≤ MAX := by
  have := List.of_mem_filter h
  simpa using this

/-- Anatomy of a successful `_parse_weight` call: the candidate list is
nonempty, entirely in range, and the selected weight is its maximum. -/
theorem parse_weight_some {MIN MAX : Nat} {text : String} {w : Nat} {cs : List Nat}
    (h : _parse_weight MIN MAX text = (some w, cs)) :
    cs ≠ [] ∧ w = maxList cs ∧ (MIN ≤ w ∧ w ≤ MAX) ∧
      ∀ v ∈ cs, MIN ≤ v ∧ v ≤ MAX := by
  simp only [_parse_weight] at h
  split at h
  · simp at h
  · split at h
    · simp at h
    · rename_i hne
      injection h with h1 h2
      injection h1 with h1
      subst h2
      subst h1
      have hnil : (parsedValues text).filter (fun v => MIN ≤ v && v ≤ MAX) ≠ [] := by
        intro hx
        rw [hx] at hne
        simp at hne
      refine ⟨hnil, rfl, ?_, fun v hv => mem_range_filter hv⟩
      exact mem_range_filter (maxList_mem _ hnil)

/-- A successful GPT assist returns the maximum of a nonempty candidate
list filtered against the hard-coded bounds 100/150000. -/
theorem gpt_some {av : Bool} {reply : Option String} {text : String}
    {w : Nat} {cs : List Nat}
    (h : _gpt_assist_from_text av reply text = (some w, cs)) :
    cs ≠ [] ∧ w = maxList cs ∧ 100 ≤ w ∧ w ≤ 150000 := by
  simp only [_gpt_assist_from_text] at h
  split at h
  · simp at h
  · split at h
    · simp at h
    · split at h
      · simp at h
      · split at h
        · simp at h
        · rename_i hne
          injection h with h1 h2
          injection h1 with h1
          subst h2
          subst h1
          refine ⟨fun hx => by rw [hx] at hne; simp at hne, rfl, ?_⟩
          exact mem_range_filter
            (maxList_mem _ (fun hx => by rw [hx] at hne; simp at hne))

/-- A successful PaddleOCR extraction is a successful `_parse_weight`. -/
theorem paddle_some {MIN MAX : Nat} {e : Env} {w : Nat} {cs : List Nat} {t : String}
    (h : _extract_with_paddle MIN MAX e = (some w, cs, t)) :
    cs ≠ [] ∧ w = maxList cs ∧ MIN ≤ w ∧ w ≤ MAX := by
  simp only [_extract_with_paddle] at h
  split at h
  · simp at h
  · split at h
    · simp at h
    · split at h
      · split at h
        · rename_i hp
          injection h with h1 h2
          injection h2 with h2 h3
          injection h1 with h1
          subst h1
          subst h2
          obtain ⟨a, b, c, _⟩ := parse_weight_some hp
          exact ⟨a, b, c⟩
        · rename_i hp
          injection h with h1 h2
          injection h2 with h2 h3
          have hpair : _parse_weight MIN MAX
              ((((e.paddleSegs.map fun tc => (pyStripS tc.1, tc.2)).filter
                  fun tc => !tc.1.isEmpty).foldl
                (fun acc tc => acc ++ tc.1 ++ " ") "")) = (some w, cs) := by
            rw [← h1, ← h2]
          obtain ⟨a, b, c, _⟩ := parse_weight_some hpair
          exact ⟨a, b, c⟩
      · injection h with h1 h2
        injection h2 with h2 h3
        have hpair : _parse_weight MIN MAX
            ((((e.paddleSegs.map fun tc => (pyStripS tc.1, tc.2)).filter
                fun tc => !tc.1.isEmpty).foldl
              (fun acc tc => acc ++ tc.1 ++ " ") "")) = (some w, cs) := by
          rw [← h1, ← h2]
        obtain ⟨a, b, c, _⟩ := parse_weight_some hpair
        exact ⟨a, b, c⟩

/-- A successful CV2-fallback extraction is a successful `_parse_weight`. -/
theorem cv2_some {MIN MAX : Nat} {e : Env} {w : Nat} {cs : List Nat}
    (h : _extract_with_cv2 MIN MAX e = (some w, cs)) :
    cs ≠ [] ∧ w = maxList cs ∧ MIN ≤ w ∧ w ≤ MAX := by
  simp only [_extract_with_cv2] at h
  split at h
  · simp at h
  · split at h
    case h_2 =>
      split at h
      · obtain ⟨a, b, c, _⟩ := parse_weight_some h
        exact ⟨a, b, c⟩
      · simp at h
    case h_1 =>
      rename_i r hbig
      subst h
      split at hbig
      case isFalse => simp at hbig
      case isTrue =>
        split at hbig
        case h_1 =>
          rename_i r2 hif
          injection hbig with hbig
          subst hbig
          split at hif
          case isFalse => simp at hif
          case isTrue =>
            split at hif
            case h_2 => simp at hif
            case h_1 =>
              rename_i hp
              injection hif with hif
              rw [hif] at hp
              obtain ⟨a, b, c, _⟩ := parse_weight_some hp
              exact ⟨a, b, c⟩
        case h_2 =>
          split at hbig
          case isFalse => simp at hbig
          case isTrue =>
            split at hbig
            case h_2 => simp at hbig
            case h_1 =>
              rename_i hp
              injection hbig with hbig
              rw [hbig] at hp
              obtain ⟨a, b, c, _⟩ := parse_weight_some hp
              exact ⟨a, b, c⟩

/-- A successful tesseract extraction is a successful `_parse_weight`. -/
theorem tess_some {MIN MAX : Nat} {e : Env} {w : Nat} {cs : List Nat} {t : String}
    (h : _extract_with_tesseract MIN MAX e = (some w, cs, t)) :
    cs ≠ [] ∧ w = maxList cs ∧ MIN ≤ w ∧ w ≤ MAX := by
  simp only [_extract_with_tesseract] at h
  split at h
  · simp at h
  · injection h with h1 h2
    injection h2 with h2 h3
    have hpair : _parse_weight MIN MAX
        (e.tessTexts.foldl (fun acc t => if !t.isEmpty then acc ++ t ++ " " else acc) "")
        = (some w, cs) := by
      rw [← h1, ← h2]
    obtain ⟨a, b, c, _⟩ := parse_weight_some hpair
    exact ⟨a, b, c⟩

/-- Any successful call of the orchestrator: the status string is empty,
the candidate list of the diagnostics is nonempty with the returned weight
as its maximum, and the weight is within the configured bounds unless the
GPT assist produced it, in which case it is within the hard-coded bounds
100/150000. -/
theorem extract_some_spec {MIN MAX : Nat} {e : Env} {w : Nat} {s : String} {d : Details}
    (h : extract_weight_from_image MIN MAX e = (some w, s, d)) :
    s = "" ∧ d.candidates ≠ [] ∧ w = maxList d.candidates ∧
      ((d.method = "gpt" ∧ 100 ≤ w ∧ w ≤ 150000) ∨
        (d.method ≠ "gpt" ∧ MIN ≤ w ∧ w ≤ MAX)) := by
  simp only [extract_weight_from_image] at h
  split at h
  · simp at h
  · split at h
    · simp at h
    · split at h
      · simp at h
      · split at h
        · -- paddle success
          rename_i w1 cs1 t1 heq
          injection h with h1 h2
          injection h2 with h2 h3
          injection h1 with h1
          subst h1
          subst h2
          subst h3
          split at heq
          · injection heq with heq
            obtain ⟨a, b, c1, c2⟩ := paddle_some heq
            exact ⟨rfl, a, b, Or.inr ⟨by simp, c1, c2⟩⟩
          · simp at heq
        · -- paddle no success
          split at h
          · -- cv2 success
            rename_i w2 cs2 heq
            injection h with h1 h2
            injection h2 with h2 h3
            injection h1 with h1
            subst h1
            subst h2
            subst h3
            obtain ⟨a, b, c1, c2⟩ := cv2_some heq
            exact ⟨rfl, a, b, Or.inr ⟨by simp, c1, c2⟩⟩
          · -- cv2 none
            split at h
            · -- tesseract success
              rename_i w3 cs3 t3 heq
              injection h with h1 h2
              injection h2 with h2 h3
              injection h1 with h1
              subst h1
              subst h2
              subst h3
              split at heq
              · injection heq with heq
                obtain ⟨a, b, c1, c2⟩ := tess_some heq
                exact ⟨rfl, a, b, Or.inr ⟨by simp, c1, c2⟩⟩
              · simp at heq
            · -- tesseract no success
              split at h
              · -- gpt success
                rename_i w4 cs4 heq
                injection h with h1 h2
                injection h2 with h2 h3
                injection h1 with h1
                subst h1
                subst h2
                subst h3
                split at heq
                · injection heq with heq
                  obtain ⟨a, b, c1, c2⟩ := gpt_some heq
                  exact ⟨rfl, a, b, Or.inl ⟨rfl, c1, c2⟩⟩
                · simp at heq
              · -- total failure: (none, failureMessage, d2) = (some w, s, d)
                simp at h


/-- The text handed to the GPT assist by the orchestrator: the paddle text
(when Paddle ran), extended and stripped by the tesseract attempt text (when
tesseract ran). -/
def gptInputText (MIN MAX : Nat) (e : Env) : String :=
  let t1 := if e.paddleAvailable then (_extract_with_paddle MIN MAX e).2.2 else ""
  if e.tesseractAvailable then
    pyStripS (t1 ++ " " ++ (_extract_with_tesseract MIN MAX e).2.2)
  else t1

theorem extract_paddle_success {MIN MAX : Nat} {e : Env} {w : Nat} {cs : List Nat} {t : String}
    (hf : e.fileExists = true) (hie : e.imreadExc = none) (hio : e.imageOk = true)
    (hpa : e.paddleAvailable = true)
    (hp : _extract_with_paddle MIN MAX e = (some w, cs, t)) :
    extract_weight_from_image MIN MAX e =
      (some w, "", { method := "paddle", error := none, text := t, candidates := cs }) := by
  simp [extract_weight_from_image, hf, hie, hio, hpa, hp]

theorem extract_cv2_success {MIN MAX : Nat} {e : Env} {w : Nat} {cs : List Nat}
    (hf : e.fileExists = true) (hie : e.imreadExc = none) (hio : e.imageOk = true)
    (hp : e.paddleAvailable = true → (_extract_with_paddle MIN MAX e).1 = none)
    (hc : _extract_with_cv2 MIN MAX e = (some w, cs)) :
    extract_weight_from_image MIN MAX e =
      (some w, "",
        { method := "cv2", error := none,
          text := if e.paddleAvailable then (_extract_with_paddle MIN MAX e).2.2 else "",
          candidates := cs }) := by
  rcases hpe : _extract_with_paddle MIN MAX e with ⟨pw, pcs, pt⟩
  by_cases hpa : e.paddleAvailable = true
  · have hpw : pw = none := by
      have := hp hpa
      rw [hpe] at this
      exact this
    subst hpw
    simp [extract_weight_from_image, hf, hie, hio, hpa, hpe, hc]
  · simp [extract_weight_from_image, hf, hie, hio, hpa, hc]

theorem extract_tess_success {MIN MAX : Nat} {e : Env} {w : Nat} {cs : List Nat} {tt : String}
    (hf : e.fileExists = true) (hie : e.imreadExc = none) (hio : e.imageOk = true)
    (hp : e.paddleAvailable = true → (_extract_with_paddle MIN MAX e).1 = none)
    (hc : (_extract_with_cv2 MIN MAX e).1 = none)
    (hta : e.tesseractAvailable = true)
    (ht : _extract_with_tesseract MIN MAX e = (some w, cs, tt)) :
    extract_weight_from_image MIN MAX e =
      (some w, "",
        { method := "tesseract", error := none,
          text := gptInputText MIN MAX e, candidates := cs }) := by
  rcases hpe : _extract_with_paddle MIN MAX e with ⟨pw, pcs, pt⟩
  rcases hce : _extract_with_cv2 MIN MAX e with ⟨cw, ccs⟩
  have hcw : cw = none := by rw [hce] at hc; exact hc
  subst hcw
  by_cases hpa : e.paddleAvailable = true
  · have hpw : pw = none := by
      have := hp hpa
      rw [hpe] at this
      exact this
    subst hpw
    simp [extract_weight_from_image, gptInputText, hf, hie, hio, hpa, hpe, hce, hta, ht]
  · simp [extract_weight_from_image, gptInputText, hf, hie, hio, hpa, hce, hta, ht]

theorem extract_gpt_success {MIN MAX : Nat} {e : Env} {w : Nat} {cs : List Nat}
    (hf : e.fileExists = true) (hie : e.imreadExc = none) (hio : e.imageOk = true)
    (hp : e.paddleAvailable = true → (_extract_with_paddle MIN MAX e).1 = none)
    (hc : (_extract_with_cv2 MIN MAX e).1 = none)
    (ht : e.tesseractAvailable = true → (_extract_with_tesseract MIN MAX e).1 = none)
    (hoa : e.openaiAvailable = true)
    (hg : _gpt_assist_from_text e.openaiAvailable e.gptReply (gptInputText MIN MAX e) = (some w, cs)) :
    extract_weight_from_image MIN MAX e =
      (some w, "",
        { method := "gpt", error := none,
          text := gptInputText MIN MAX e, candidates := cs }) := by
  rcases hpe : _extract_with_paddle MIN MAX e with ⟨pw, pcs, pt⟩
  rcases hce : _extract_with_cv2 MIN MAX e with ⟨cw, ccs⟩
  rcases hte : _extract_with_tesseract MIN MAX e with ⟨tw, tcs, tt⟩
  have hcw : cw = none := by rw [hce] at hc; exact hc
  subst hcw
  by_cases hpa : e.paddleAvailable = true
  · have hpw : pw = none := by
      have := hp hpa
      rw [hpe] at this
      exact this
    subst hpw
    by_cases hta : e.tesseractAvailable = true
    · have htw : tw = none := by
        have := ht hta
        rw [hte] at this
        exact this
      subst htw
      simp only [gptInputText, hpa, hta, hoa, if_true, if_false,
        Bool.false_eq_true, String.empty_append, hpe, hte] at hg
      simp [extract_weight_from_image, gptInputText, hf, hie, hio, hpa, hpe, hce, hta, hte, hoa, hg]
    · simp only [gptInputText, hpa, hta, hoa, if_true, if_false,
        Bool.false_eq_true, String.empty_append, hpe, hte] at hg
      simp [extract_weight_from_image, gptInputText, hf, hie, hio, hpa, hpe, hce, hta, hoa, hg]
  · by_cases hta : e.tesseractAvailable = true
    · have htw : tw = none := by
        have := ht hta
        rw [hte] at this
        exact this
      subst htw
      simp only [gptInputText, hpa, hta, hoa, if_true, if_false,
        Bool.false_eq_true, String.empty_append, hpe, hte] at hg
      simp [extract_weight_from_image, gptInputText, hf, hie, hio, hpa, hce, hta, hte, hoa, hg]
    · simp only [gptInputText, hpa, hta, hoa, if_true, if_false,
        Bool.false_eq_true, String.empty_append, hpe, hte] at hg
      simp [extract_weight_from_image, gptInputText, hf, hie, hio, hpa, hce, hta, hoa, hg]


theorem le_maxList : ∀ (l : List Nat), ∀ v ∈ l, v ≤ maxList l
  | [], _, hv => by simp at hv
  | [x], v, hv => by
    rw [List.mem_singleton.mp hv]
    exact Nat.le_refl _
  | x :: y :: xs, v, hv => by
    show v ≤ max x (maxList (y :: xs))
    rcases List.mem_cons.mp hv with h | h
    · subst h
      exact le_max_left _ _
    · exact le_trans (le_maxList (y :: xs) v h) (le_max_right _ _)

/-- Once the file and decode gates pass, a `none` weight can only come from
the terminal all-backends-exhausted return, whose status string is the fixed
guidance message. -/
theorem extract_none_spec {MIN MAX : Nat} {e : Env} {s : String} {d : Details}
    (hf : e.fileExists = true) (hie : e.imreadExc = none) (hio : e.imageOk = true)
    (h : extract_weight_from_image MIN MAX e = (none, s, d)) : s = failureMessage := by
  simp only [extract_weight_from_image, hf, hie, hio, Bool.not_true,
    Bool.false_eq_true, if_false] at h
  split at h
  · simp at h
  · split at h
    · simp at h
    · split at h
      · simp at h
      · split at h
        · simp at h
        · injection h with h1 h2
          injection h2 with h2 h3
          exact h2.symm

theorem extract_none_backends {MIN MAX : Nat} {e : Env} {s : String} {d : Details}
    (hf : e.fileExists = true) (hie : e.imreadExc = none) (hio : e.imageOk = true)
    (h : extract_weight_from_image MIN MAX e = (none, s, d)) :
    (e.paddleAvailable = true → (_extract_with_paddle MIN MAX e).1 = none) ∧
    (_extract_with_cv2 MIN MAX e).1 = none ∧
    (e.tesseractAvailable = true → (_extract_with_tesseract MIN MAX e).1 = none) ∧
    (e.openaiAvailable = true →
      (_gpt_assist_from_text e.openaiAvailable e.gptReply (gptInputText MIN MAX e)).1 = none) := by
  have hp : e.paddleAvailable = true → (_extract_with_paddle MIN MAX e).1 = none := by
    intro hpa
    rcases hpe : _extract_with_paddle MIN MAX e with ⟨pw, pcs, pt⟩
    rcases pw with _ | w
    · rfl
    · have hs := extract_paddle_success hf hie hio hpa hpe
      rw [h] at hs
      simp at hs
  have hc : (_extract_with_cv2 MIN MAX e).1 = none := by
    rcases hce : _extract_with_cv2 MIN MAX e with ⟨cw, ccs⟩
    rcases cw with _ | w
    · rfl
    · have hs := extract_cv2_success hf hie hio hp hce
      rw [h] at hs
      simp at hs
  have ht : e.tesseractAvailable = true → (_extract_with_tesseract MIN MAX e).1 = none := by
    intro hta
    rcases hte : _extract_with_tesseract MIN MAX e with ⟨tw, tcs, tt⟩
    rcases tw with _ | w
    · rfl
    · have hs := extract_tess_success hf hie hio hp hc hta hte
      rw [h] at hs
      simp at hs
  have hg : e.openaiAvailable = true →
      (_gpt_assist_from_text e.openaiAvailable e.gptReply (gptInputText MIN MAX e)).1 = none := by
    intro hoa
    rcases hge : _gpt_assist_from_text e.openaiAvailable e.gptReply (gptInputText MIN MAX e)
      with ⟨gw, gcs⟩
    rcases gw with _ | w
    · rfl
    · have hs := extract_gpt_success hf hie hio hp hc ht hoa hge
      rw [h] at hs
      simp at hs
  exact ⟨hp, hc, ht, hg⟩



theorem ws_not_digit {c : Char} (h : c.isWhitespace = true) : c.isDigit = false := by
  simp [Char.isWhitespace] at h
  rcases h with ((h | h) | h) | h <;> subst h <;> decide

theorem filter_digit_dropWhile_ws :
    ∀ l : List Char,
      (l.dropWhile Char.isWhitespace).filter Char.isDigit = l.filter Char.isDigit
  | [] => rfl
  | c :: cs => by
    by_cases h : c.isWhitespace = true
    · rw [List.dropWhile_cons_of_pos h, filter_digit_dropWhile_ws cs,
        List.filter_cons_of_neg (by simp [ws_not_digit h])]
    · rw [List.dropWhile_cons_of_neg h]

theorem filter_digit_pyStrip (s : List Char) :
    (pyStrip s).filter Char.isDigit = s.filter Char.isDigit := by
  unfold pyStrip
  rw [List.filter_reverse, filter_digit_dropWhile_ws, List.filter_reverse,
    List.reverse_reverse, filter_digit_dropWhile_ws]

theorem clean_number_digits (s : List Char) :
    _clean_number_string s =
      (if (s.filter Char.isDigit).isEmpty then none
       else some (natOfDigits (s.filter Char.isDigit))) := by
  unfold _clean_number_string
  have hs3 : (((pyStrip s).filter (fun c => !(c == '.'))).filter
      (fun c => !(c == ','))).filter Char.isDigit = s.filter Char.isDigit := by
    rw [List.filter_filter, List.filter_filter]
    rw [List.filter_congr (q := Char.isDigit) ?_, filter_digit_pyStrip]
    intro x _
    cases h : x.isDigit with
    | false => simp [h]
    | true =>
      have h1 : (x == ',') = false := by
        cases h2 : x == ','
        · rfl
        · exact absurd (eq_of_beq h2 ▸ h) (by decide)
      have h2 : (x == '.') = false := by
        cases h3 : x == '.'
        · rfl
        · exact absurd (eq_of_beq h3 ▸ h) (by decide)
      simp [h, h1, h2]
  simp only [hs3]
  by_cases hfe : (s.filter Char.isDigit).isEmpty = true
  · simp only [hfe, if_true]
    split
    · rfl
    · simp [hfe]
  · have hne : s.filter Char.isDigit ≠ [] := by
      intro hx
      rw [hx] at hfe
      simp at hfe
    obtain ⟨c, hc⟩ := List.exists_mem_of_ne_nil _ hne
    have hmem : c ∈ (pyStrip s).filter Char.isDigit := by
      rw [filter_digit_pyStrip]
      exact hc
    have hany : (pyStrip s).any Char.isDigit = true :=
      List.any_eq_true.mpr ⟨c, List.mem_of_mem_filter hmem, List.of_mem_filter hmem⟩
    have hnemp : (pyStrip s).isEmpty = false := by
      cases hemp : (pyStrip s).isEmpty
      · rfl
      · rw [List.isEmpty_iff] at hemp
        rw [hemp] at hmem
        simp at hmem
    simp [hnemp, hany, hfe]



/-- C1 counterexample: with configured bounds 5000/60000 and every OCR
backend silent, a GPT reply of "100000" is accepted (it passes the
hard-coded 100/150000 filter) and returned although it exceeds MAX. -/
theorem C1_range_counterexample :
    extract_weight_from_image 5000 60000
      { openaiAvailable := true, gptReply := some "100000" } =
      (some 100000, "",
        { method := "gpt", error := none, text := "", candidates := [100000] }) ∧
    ¬(100000 ≤ 60000) :=
  ⟨by rfl, by decide⟩

/-- C1 (amended): a returned weight respects the configured bounds whenever
it was produced by the PaddleOCR, CV2 or tesseract stages; a weight produced
by the GPT stage respects the hard-coded bounds 100/150000 instead. -/
theorem C1_range_amended {MIN MAX : Nat} {e : Env} {w : Nat} {s : String} {d : Details}
    (h : extract_weight_from_image MIN MAX e = (some w, s, d)) :
    (d.method = "gpt" ∧ 100 ≤ w ∧ w ≤ 150000) ∨
      (d.method ≠ "gpt" ∧ MIN ≤ w ∧ w ≤ MAX) :=
  (extract_some_spec h).2.2.2

theorem C1_range_amended_witness :
    (({ method := "paddle", error := none, text := "23450 kg ",
        candidates := [23450] } : Details).method = "gpt" ∧
      100 ≤ 23450 ∧ 23450 ≤ 150000) ∨
    (({ method := "paddle", error := none, text := "23450 kg ",
        candidates := [23450] } : Details).method ≠ "gpt" ∧
      5000 ≤ 23450 ∧ 23450 ≤ 60000) :=
  @C1_range_amended 5000 60000
    { paddleAvailable := true, paddleSegs := [("23450 kg", mkRat 9 10)] }
    23450 ""
    { method := "paddle", error := none, text := "23450 kg ", candidates := [23450] }
    (by rfl)

/-- C2 counterexample: on a text holding both the labeled value 23450
("gross weight: 23450") and the larger unrelated in-range bare number 99999,
`_parse_weight` returns the bare 99999, not the labeled 23450. -/
theorem C2_tier_counterexample :
    _parse_weight 1 150000 "gross weight: 23450 and 99999" =
      (some 99999, [23450, 99999]) ∧
    (99999 : Nat) ≠ 23450 :=
  ⟨by rfl, by decide⟩

/-- C2 (amended): the parser has no labeled-pattern tier; it selects the
maximum in-range numeric candidate regardless of surrounding keywords, so on
text with the labeled 23450 and the bare 99999 it returns 99999. -/
theorem C2_tier_amended :
    _parse_weight 1 150000 "gross weight: 23450 and 99999" =
      (some 99999, [23450, 99999]) ∧
    99999 = maxList [23450, 99999] :=
  ⟨by rfl, by rfl⟩

/-- C3 counterexample: with configured bounds 1/50000, a photo whose only
recognized numeric content is 99999 (above MAX) can still end in 99999 being
returned: the parser rejects it everywhere, but the GPT assist filters
against the hard-coded 100/150000 and accepts the echo of the same number. -/
theorem C3_oor_counterexample :
    (∀ v ∈ parsedValues "99999 ", 50000 < v) ∧
    extract_weight_from_image 1 50000
      { paddleAvailable := true, paddleSegs := [("99999", mkRat 9 10)],
        openaiAvailable := true, gptReply := some "99999" } =
      (some 99999, "",
        { method := "gpt", error := none, text := "99999 ", candidates := [99999] }) ∧
    ¬(99999 ≤ 50000) :=
  ⟨by decide, by rfl, by decide⟩

/-- C3 (amended): `_parse_weight` — and with it the PaddleOCR, CV2 and
tesseract stages — never selects a value above MAX: when every parsed value
of the text exceeds MAX the parse result is no value with an empty candidate
list.  Only the GPT stage, filtering against the hard-coded 100/150000, can
return such a number when MAX is configured below 150000. -/
theorem C3_oor_amended (MIN MAX : Nat) (text : String)
    (h : ∀ v ∈ parsedValues text, MAX < v) :
    _parse_weight MIN MAX text = (none, []) := by
  simp only [_parse_weight]
  split
  · rfl
  · have hnil : (parsedValues text).filter (fun v => MIN ≤ v && v ≤ MAX) = [] := by
      rw [List.filter_eq_nil_iff]
      intro v hv
      simp only [Bool.and_eq_true, decide_eq_true_eq, not_and]
      intro _
      exact Nat.not_le.mpr (h v hv)
    rw [hnil]
    simp

theorem C3_oor_amended_witness :
    _parse_weight 1 150000 "999999" = (none, []) :=
  C3_oor_amended 1 150000 "999999" (by decide)

/-- C4 counterexample: the input "2345O" (trailing letter O) parses to the
candidate 2345, not 23450 — no letter-for-digit substitution happens. -/
theorem C4_subst_counterexample :
    _parse_weight 1 150000 "2345O" = (some 2345, [2345]) ∧
    (2345 : Nat) ≠ 23450 :=
  ⟨by rfl, by decide⟩

/-- C4 (amended): the cleaning step applies no substitution table at all: a
fragment's value is the number spelled by exactly its digit characters,
every other character (letters O, l, I, S included) being discarded; hence
"2345O" yields the candidate 2345. -/
theorem C4_subst_amended :
    (∀ s : List Char, _clean_number_string s =
      (if (s.filter Char.isDigit).isEmpty then none
       else some (natOfDigits (s.filter Char.isDigit)))) ∧
    _parse_weight 1 150000 "2345O" = (some 2345, [2345]) :=
  ⟨clean_number_digits, by rfl⟩


/-- C5: when PaddleOCR is present and raises, the exception is swallowed
(`_extract_with_paddle` yields no result instead of propagating), the
pipeline still tries the remaining backends — a CV2 success is returned as
the final result — and a no-value outcome implies that CV2, tesseract (when
available) and the GPT assist (when available) all produced nothing. -/
theorem C5_graceful_degradation (MIN MAX : Nat) (e : Env)
    (hpa : e.paddleAvailable = true) (hpe : e.paddleExc = true)
    (hf : e.fileExists = true) (hie : e.imreadExc = none) (hio : e.imageOk = true) :
    _extract_with_paddle MIN MAX e = (none, [], "") ∧
    (∀ w cs, _extract_with_cv2 MIN MAX e = (some w, cs) →
      extract_weight_from_image MIN MAX e =
        (some w, "", { method := "cv2", error := none, text := "", candidates := cs })) ∧
    (∀ s d, extract_weight_from_image MIN MAX e = (none, s, d) →
      (_extract_with_cv2 MIN MAX e).1 = none ∧
      (e.tesseractAvailable = true → (_extract_with_tesseract MIN MAX e).1 = none) ∧
      (e.openaiAvailable = true →
        (_gpt_assist_from_text e.openaiAvailable e.gptReply
          (gptInputText MIN MAX e)).1 = none)) := by
  have hpn : _extract_with_paddle MIN MAX e = (none, [], "") := by
    simp [_extract_with_paddle, hpe]
  refine ⟨hpn, ?_, ?_⟩
  · intro w cs hc
    have hs := extract_cv2_success hf hie hio (fun _ => by rw [hpn]) hc
    simpa [hpa, hpn] using hs
  · intro s d h
    obtain ⟨_, hc, ht, hg⟩ := extract_none_backends hf hie hio h
    exact ⟨hc, ht, hg⟩

theorem C5_witness :
    _extract_with_paddle 1 150000
        { paddleAvailable := true, paddleExc := true, cv2AllNumbers := "23450" } =
      (none, [], "") ∧
    extract_weight_from_image 1 150000
        { paddleAvailable := true, paddleExc := true, cv2AllNumbers := "23450" } =
      (some 23450, "",
        { method := "cv2", error := none, text := "", candidates := [23450] }) :=
  ⟨(C5_graceful_degradation 1 150000
      { paddleAvailable := true, paddleExc := true, cv2AllNumbers := "23450" }
      rfl rfl rfl rfl rfl).1,
    (C5_graceful_degradation 1 150000
      { paddleAvailable := true, paddleExc := true, cv2AllNumbers := "23450" }
      rfl rfl rfl rfl rfl).2.1 23450 [23450] (by rfl)⟩

/-- C6: an exception reaching the orchestrator boundary (modelled by the
decode call raising with message `msg`) is converted into the three-tuple
with no weight, a status naming the message, and the message stored in the
diagnostics error field — the embedded function is total, so nothing
escapes. -/
theorem C6_no_escape (MIN MAX : Nat) (e : Env) (msg : String)
    (hf : e.fileExists = true) (hexc : e.imreadExc = some msg) :
    extract_weight_from_image MIN MAX e =
      (none, "❌ Ошибка обработки фото: " ++ msg,
        { method := "none", error := some msg, text := "", candidates := [] }) := by
  simp [extract_weight_from_image, hf, hexc]

theorem C6_witness :
    extract_weight_from_image 1 150000 { imreadExc := some "boom" } =
      (none, "❌ Ошибка обработки фото: " ++ "boom",
        { method := "none", error := some "boom", text := "", candidates := [] }) :=
  C6_no_escape 1 150000 { imreadExc := some "boom" } "boom" rfl rfl

/-- C7: whenever `_parse_weight` selects a weight, that weight is the
maximum of the collected (in-range) candidate list; in particular on
"12000 kg 23450 kg" the larger number 23450 is selected. -/
theorem C7_max_selection {MIN MAX : Nat} {text : String} {w : Nat} {cs : List Nat}
    (h : _parse_weight MIN MAX text = (some w, cs)) :
    cs ≠ [] ∧ w = maxList cs ∧ ∀ v ∈ cs, v ≤ w := by
  obtain ⟨a, b, _, _⟩ := parse_weight_some h
  exact ⟨a, b, fun v hv => by rw [b]; exact le_maxList cs v hv⟩

theorem C7_witness :
    _parse_weight 1 150000 "12000 kg 23450 kg" = (some 23450, [12000, 23450]) ∧
    (([12000, 23450] : List Nat) ≠ [] ∧ 23450 = maxList [12000, 23450] ∧
      ∀ v ∈ ([12000, 23450] : List Nat), v ≤ 23450) :=
  ⟨by rfl, @C7_max_selection 1 150000 "12000 kg 23450 kg" 23450 [12000, 23450] (by rfl)⟩

/-- C8 counterexample: on "999999 and 23450" with bounds 1/150000, the
out-of-range 999999 is found in the text but does not appear in the
returned candidate list — it is discarded at collection, not after it. -/
theorem C8_collection_counterexample :
    _parse_weight 1 150000 "999999 and 23450" = (some 23450, [23450]) ∧
    (999999 : Nat) ∈ parsedValues "999999 and 23450" ∧
    (999999 : Nat) ∉ (_parse_weight 1 150000 "999999 and 23450").2 :=
  ⟨by rfl, by decide, by decide⟩

/-- C8 (amended): the range filter is applied at collection time: every
value in the candidate list `_parse_weight` returns (and hence in the
diagnostics) lies within the configured bounds; rejected values are only
logged, never recorded. -/
theorem C8_collection_amended (MIN MAX : Nat) (text : String) (v : Nat)
    (h : v ∈ (_parse_weight MIN MAX text).2) : MIN ≤ v ∧ v ≤ MAX := by
  simp only [_parse_weight] at h
  split at h
  · simp at h
  · split at h <;> exact mem_range_filter h

theorem C8_collection_amended_witness :
    (23450 : Nat) ∈ (_parse_weight 1 150000 "999999 and 23450").2 ∧
    1 ≤ 23450 ∧ 23450 ≤ 150000 :=
  ⟨by decide, C8_collection_amended 1 150000 "999999 and 23450" 23450 (by decide)⟩

/-- C9: every successful extraction carries the empty status string, and —
once the file and decode gates pass — a no-value extraction carries exactly
the fixed non-empty guidance message. -/
theorem C9_status_messages (MIN MAX : Nat) (e : Env) :
    (∀ w s d, extract_weight_from_image MIN MAX e = (some w, s, d) → s = "") ∧
    (e.fileExists = true → e.imreadExc = none → e.imageOk = true →
      ∀ s d, extract_weight_from_image MIN MAX e = (none, s, d) →
        s = failureMessage ∧ failureMessage ≠ "") := by
  constructor
  · intro w s d h
    exact (extract_some_spec h).1
  · intro hf hie hio s d h
    exact ⟨extract_none_spec hf hie hio h, by decide⟩

theorem C9_witness :
    failureMessage = failureMessage ∧ failureMessage ≠ "" :=
  (C9_status_messages 1 150000 { paddleAvailable := true, paddleRawEmpty := true }).2
    rfl rfl rfl failureMessage
    { method := "none", error := none, text := "", candidates := [] } (by rfl)

/-- C10: whenever the orchestrator returns a weight, the candidates list in
the returned diagnostics is nonempty and the weight is its maximum. -/
theorem C10_weight_is_max_candidate {MIN MAX : Nat} {e : Env} {w : Nat}
    {s : String} {d : Details}
    (h : extract_weight_from_image MIN MAX e = (some w, s, d)) :
    d.candidates ≠ [] ∧ w = maxList d.candidates :=
  ⟨(extract_some_spec h).2.1, (extract_some_spec h).2.2.1⟩

theorem C10_witness :
    (([23450] : List Nat) ≠ []) ∧ 23450 = maxList [23450] :=
  @C10_weight_is_max_candidate 1 150000 { cv2AllNumbers := "23450" } 23450 ""
    { method := "cv2", error := none, text := "", candidates := [23450] } (by rfl)


end OcrUtils
